import Mathlib

/-!
# Cobra Wars — verification of the core simulation against its specification

Shallow embedding of the repository's Python sources:
- `reptile.py` (`Reptile`: movement, growth, collision detection),
- `vitalityorb.py` (`VitalityOrb`: random spawn position),
- `matchcontroller.py` (`MatchController`: per-tick simulation `advance_game`,
  battle transitions `initialize_next_battle`, input handling
  `manage_interactions`).

Grid cells are integer pairs; Python's `%` on a positive modulus agrees with
`Int.emod` (both return a value in `[0, m)`), so positions are `Int`.
Randomness (`randint` draws for food and orb positions) is modelled by a
stream `rng : Nat → Pos` threaded through the state with a cursor `rngIdx`.
Wall-clock time (`time.time()`) is modelled as an integer timestamp `now`
supplied to the tick.  Python operations that can raise (indexing `segments[0]`
or `segments[-1]` of an empty list) return `Option`.

`archive_scores` and `restart_battle` are called by the controller but their
bodies are not present in the sources; they are modelled from the spec
(marked `Modelled from the spec:` below).
-/

namespace CobraWars

/-- Configuration value `DISPLAY_WIDTH` from the sources. -/
def DISPLAY_WIDTH : Int := 1200

/-- Configuration value `DISPLAY_HEIGHT` from the sources. -/
def DISPLAY_HEIGHT : Int := 900

/-- Configuration value `REPTILE_DIMENSION` (grid cell size) from the sources. -/
def REPTILE_DIMENSION : Int := 20

/-- Configuration value `ORB_RESPAWN_TIME` (seconds) from the sources. -/
def ORB_RESPAWN_TIME : Int := 20

/-- Grid width in cells: `DISPLAY_WIDTH // REPTILE_DIMENSION` = 60. -/
def gridW : Int := DISPLAY_WIDTH / REPTILE_DIMENSION

/-- Grid height in cells: `DISPLAY_HEIGHT // REPTILE_DIMENSION` = 45. -/
def gridH : Int := DISPLAY_HEIGHT / REPTILE_DIMENSION

/-- A grid cell / direction vector: the `{'x': .., 'y': ..}` dictionaries of
the Python sources. -/
structure Pos where
  x : Int
  y : Int
deriving DecidableEq, Repr

/-- `MOVE_RIGHT = {'x': 1, 'y': 0}`. -/
def MOVE_RIGHT : Pos := ⟨1, 0⟩

/-- `MOVE_LEFT = {'x': -1, 'y': 0}`. -/
def MOVE_LEFT : Pos := ⟨-1, 0⟩

/-- `MOVE_UP = {'x': 0, 'y': -1}`. -/
def MOVE_UP : Pos := ⟨0, -1⟩

/-- `MOVE_DOWN = {'x': 0, 'y': 1}`. -/
def MOVE_DOWN : Pos := ⟨0, 1⟩

/-- The four legal direction vectors of the sources. -/
def legalDirs : List Pos := [MOVE_RIGHT, MOVE_LEFT, MOVE_UP, MOVE_DOWN]

/-- Componentwise negation: the "exact opposite" direction. -/
def Pos.opposite (p : Pos) : Pos := ⟨-p.x, -p.y⟩

/-- `Reptile` from `reptile.py`: body segments (head first), current movement
direction, health (`vitality`) and score (`tally`).  The render-only colour
`tint` is omitted. -/
structure Reptile where
  segments : List Pos
  move_direction : Pos
  vitality : Int
  tally : Int
deriving DecidableEq, Repr

/-- `Reptile.__init__`: body is the single start segment, vitality 100,
tally 0. -/
def Reptile.init (start_position : Pos) (move_direction : Pos) : Reptile :=
  { segments := [start_position]
    move_direction := move_direction
    vitality := 100
    tally := 0 }

/-- `Reptile.move`: new head = (old head + direction) mod grid dimensions,
inserted at the front; then the last segment is popped.  Indexing
`segments[0]` of an empty body raises in Python, hence `Option`. -/
def Reptile.move (r : Reptile) : Option Reptile :=
  match r.segments with
  | [] => none
  | h :: rest =>
    let new_head : Pos :=
      ⟨(h.x + r.move_direction.x) % gridW, (h.y + r.move_direction.y) % gridH⟩
    some { r with segments := (new_head :: h :: rest).dropLast }

/-- `Reptile.expand`: appends a copy of the last segment
(`segments.append(segments[-1])`); `segments[-1]` raises on an empty body. -/
def Reptile.expand (r : Reptile) : Option Reptile :=
  match r.segments.getLast? with
  | none => none
  | some t => some { r with segments := r.segments ++ [t] }

/-- `Reptile.detect_collision`: head equals the given item (componentwise);
`segments[0]` raises on an empty body. -/
def Reptile.detect_collision (r : Reptile) (item : Pos) : Option Bool :=
  match r.segments with
  | [] => none
  | h :: _ => some (decide (h = item))

/-- `Reptile.detect_self_impact`: head occurs among the remaining segments. -/
def Reptile.detect_self_impact (r : Reptile) : Option Bool :=
  match r.segments with
  | [] => none
  | h :: rest => some (decide (h ∈ rest))

/-- Combatant 1's spawn cell `{'x': 5, 'y': DISPLAY_HEIGHT // REPTILE_DIMENSION // 2}`. -/
def spawn1 : Pos := ⟨5, DISPLAY_HEIGHT / REPTILE_DIMENSION / 2⟩

/-- Combatant 2's spawn cell
`{'x': DISPLAY_WIDTH // REPTILE_DIMENSION - 5, 'y': DISPLAY_HEIGHT // REPTILE_DIMENSION // 2}`. -/
def spawn2 : Pos := ⟨DISPLAY_WIDTH / REPTILE_DIMENSION - 5, DISPLAY_HEIGHT / REPTILE_DIMENSION / 2⟩

/-- `MatchController` from `matchcontroller.py`, restricted to the simulation
state (rendering surfaces, fonts and button rectangles are omitted).  Orbs are
represented by their coordinates (`VitalityOrb.coordinates`).  `rng`/`rngIdx`
model the stream of `randint`-generated cells, `now` the tick's wall-clock
timestamp. -/
structure MatchController where
  isActive : Bool
  isInPlay : Bool
  isPaused : Bool
  isOver : Bool
  combatant1 : Reptile
  combatant2 : Reptile
  restorativeOrbs : List Pos
  lastOrbRegen : Int
  nourishment : Pos
  totalRounds : Int
  currentBattle : Int
  isAcceptingInput : Bool
  enteredText : String
  scores1 : List Int
  scores2 : List Int
  rng : Nat → Pos
  rngIdx : Nat
  now : Int

/-- `MatchController.generate_nourishment`: one random cell drawn from the
stream (the two `randint` calls of the source are one `Pos` draw here). -/
def MatchController.generate_nourishment (m : MatchController) :
    Pos × MatchController :=
  (m.rng m.rngIdx, { m with rngIdx := m.rngIdx + 1 })

/-- `MatchController.replenish_vitality_orbs`: when the elapsed time since the
last regeneration reaches `ORB_RESPAWN_TIME`, append a freshly spawned orb
(`VitalityOrb.regenerate`, one random cell) and reset the timestamp. -/
def MatchController.replenish_vitality_orbs (m : MatchController) :
    MatchController :=
  if ORB_RESPAWN_TIME ≤ m.now - m.lastOrbRegen then
    { m with restorativeOrbs := m.restorativeOrbs ++ [m.rng m.rngIdx]
             rngIdx := m.rngIdx + 1
             lastOrbRegen := m.now }
  else m

/-- The edge-penalty block of `advance_game` for one combatant: `-5` when the
head's x is `<= 0`, `elif` `-5` when it is `>= DISPLAY_WIDTH // REPTILE_DIMENSION`;
then independently the same for y against the grid height. -/
def boundaryPenalty (r : Reptile) : Option Reptile :=
  match r.segments with
  | [] => none
  | h :: _ =>
    let v1 : Int :=
      if h.x ≤ 0 then r.vitality - 5
      else if gridW ≤ h.x then r.vitality - 5
      else r.vitality
    let v2 : Int :=
      if h.y ≤ 0 then v1 - 5
      else if gridH ≤ h.y then v1 - 5
      else v1
    some { r with vitality := v2 }

/-- Modelled from the spec: `archive_scores` is called by `advance_game` when a
battle ends but its body is absent from the sources; per §4.3 it archives both
creatures' scores for the current battle, appending each combatant's `tally`
to the per-creature score history. -/
def MatchController.archive_scores (m : MatchController) : MatchController :=
  { m with scores1 := m.scores1 ++ [m.combatant1.tally]
           scores2 := m.scores2 ++ [m.combatant2.tally] }

/-- `MatchController.initialize_next_battle`: fresh combatants at the spawn
cells with vitality set to 100, regenerated nourishment, cleared orb list and
reset orb timestamp. -/
def MatchController.initialize_next_battle (m : MatchController) :
    MatchController :=
  let m1 := { m with
    combatant1 := { Reptile.init spawn1 MOVE_RIGHT with vitality := 100 }
    combatant2 := { Reptile.init spawn2 MOVE_LEFT with vitality := 100 } }
  let (food, m2) := m1.generate_nourishment
  { m2 with nourishment := food, restorativeOrbs := [], lastOrbRegen := m2.now }

/-- Stage 1-3 of `advance_game`: orb replenishment, both moves, both
edge-penalty blocks. -/
def MatchController.tickMovePenalty (m : MatchController) :
    Option MatchController := do
  let m := m.replenish_vitality_orbs
  let c1 ← m.combatant1.move
  let c1 ← boundaryPenalty c1
  let c2 ← m.combatant2.move
  let c2 ← boundaryPenalty c2
  pure { m with combatant1 := c1, combatant2 := c2 }

/-- The battle-termination block of `advance_game`: when either vitality is
`<= 0`, archive scores, then either advance `currentBattle` and reinitialize,
or set `isOver`.  Control then falls through to the interaction checks (the
source has no early return). -/
def MatchController.battleEndCheck (m : MatchController) : MatchController :=
  if m.combatant1.vitality ≤ 0 ∨ m.combatant2.vitality ≤ 0 then
    let m1 := m.archive_scores
    if m1.currentBattle < m1.totalRounds then
      { m1 with currentBattle := m1.currentBattle + 1 }.initialize_next_battle
    else
      { m1 with isOver := true }
  else m

/-- Clamped healing on orb pickup: `min(vitality + 30, 100)`. -/
def Reptile.heal (r : Reptile) : Reptile :=
  { r with vitality := min (r.vitality + 30) 100 }

/-- The orb loop of `advance_game`: Python iterates over a snapshot
(`restorativeOrbs[:]`) while removing consumed orbs from the live list
(`restorativeOrbs.remove(orb)` deletes the first occurrence).  The first
argument is the remaining snapshot, the second the live list.  Combatant 1 is
tested before combatant 2 for each orb (`elif`), and the loop does not stop
after a match. -/
def orbScan : List Pos → List Pos → Reptile → Reptile →
    Option (List Pos × Reptile × Reptile)
  | [], live, c1, c2 => some (live, c1, c2)
  | orb :: rest, live, c1, c2 => do
    let hit1 ← c1.detect_collision orb
    if hit1 then
      orbScan rest (live.erase orb) c1.heal c2
    else
      let hit2 ← c2.detect_collision orb
      if hit2 then
        orbScan rest (live.erase orb) c1 c2.heal
      else
        orbScan rest live c1 c2

/-- The combatant-versus-combatant block of `advance_game`: each head is tested
for membership in the other body, the two `-5` penalties being independent. -/
def creatureClash (c1 c2 : Reptile) : Option (Reptile × Reptile) :=
  match c1.segments, c2.segments with
  | h1 :: _, h2 :: _ =>
    let c1' := if h1 ∈ c2.segments then { c1 with vitality := c1.vitality - 5 } else c1
    let c2' := if h2 ∈ c1.segments then { c2 with vitality := c2.vitality - 5 } else c2
    some (c1', c2')
  | _, _ => none

/-- The nourishment block of `advance_game` for combatant 1: on head-on-food,
regenerate the nourishment, add 5 to the tally and expand. -/
def MatchController.foodCheck1 (m : MatchController) : Option MatchController := do
  let hit ← m.combatant1.detect_collision m.nourishment
  if hit then
    let (food, m1) := m.generate_nourishment
    let c1 ← m1.combatant1.expand
    pure { m1 with nourishment := food
                   combatant1 := { c1 with tally := c1.tally + 5 } }
  else
    pure m

/-- The nourishment block of `advance_game` for combatant 2 (runs after
combatant 1's, against the possibly regenerated nourishment). -/
def MatchController.foodCheck2 (m : MatchController) : Option MatchController := do
  let hit ← m.combatant2.detect_collision m.nourishment
  if hit then
    let (food, m1) := m.generate_nourishment
    let c2 ← m1.combatant2.expand
    pure { m1 with nourishment := food
                   combatant2 := { c2 with tally := c2.tally + 5 } }
  else
    pure m

/-- Stages 5-7 of `advance_game`: orb consumption, combatant collision,
nourishment. -/
def MatchController.interactions (m : MatchController) : Option MatchController :=
  (orbScan m.restorativeOrbs m.restorativeOrbs m.combatant1 m.combatant2).bind
    (fun out =>
      (creatureClash out.2.1 out.2.2).bind
        (fun cc =>
          ({ m with restorativeOrbs := out.1
                    combatant1 := cc.1
                    combatant2 := cc.2 }.foodCheck1).bind
            (fun mf => mf.foodCheck2)))

/-- `MatchController.advance_game`: the whole tick, in source order.  The
battle-termination block is followed unconditionally by the interaction
checks. -/
def MatchController.advance_game (m : MatchController) : Option MatchController :=
  (m.tickMovePenalty).bind (fun m1 => m1.battleEndCheck.interactions)

/-- Modelled from the spec: `restart_battle` is called on the replay button of
the game-over screen but its body is absent from the sources; per §4.3 replay
performs a `CONFIGURING_ROUNDS`-equivalent reset: score history cleared,
combatants, nourishment and orbs reinitialized, battle index back to 1,
round-count entry reopened. -/
def MatchController.restart_battle (m : MatchController) : MatchController :=
  let m1 := { m with
    isOver := false
    isInPlay := false
    isAcceptingInput := true
    enteredText := ""
    currentBattle := 1
    totalRounds := 0
    scores1 := []
    scores2 := [] }
  m1.initialize_next_battle

/-- Python's `int(...)` on the round-count buffer.  The `KEYDOWN` handler only
ever appends decimal digits to `enteredText` (and backspace removes one), so
the buffer is always a digit string, on which `int` returns the decimal value
and raises `ValueError` exactly on the empty string — here `none`. -/
def int_of_buffer (s : String) : Option Int :=
  if s.data = [] then none
  else if s.data.all (fun c => c.isDigit) then
    some (s.data.foldl (fun a c => a * 10 + Int.ofNat (c.toNat - 48)) 0)
  else none

/-- The confirm-button branch of `manage_interactions`.
On success of `int(enteredText)`: set `totalRounds`, clear the buffer, leave
input mode, start play.  On `ValueError`: clear the buffer only. -/
def MatchController.confirm_rounds (m : MatchController) : MatchController :=
  match int_of_buffer m.enteredText with
  | some n =>
    { m with totalRounds := n
             enteredText := ""
             isAcceptingInput := false
             isInPlay := true }
  | none => { m with enteredText := "" }

/-- The keys steering combatant 1 in `manage_interactions`. -/
inductive GKey | w | a | s | d
deriving DecidableEq, Repr

/-- The combatant-1 branch of the `KEYDOWN` handler: each key sets its
direction unless the current direction is the exact opposite (the guard
compares against the direction current at the time of the event). -/
def combatant1KeyUpdate (dir : Pos) (k : GKey) : Pos :=
  match k with
  | GKey.w => if dir ≠ MOVE_DOWN then MOVE_UP else dir
  | GKey.a => if dir ≠ MOVE_RIGHT then MOVE_LEFT else dir
  | GKey.s => if dir ≠ MOVE_UP then MOVE_DOWN else dir
  | GKey.d => if dir ≠ MOVE_LEFT then MOVE_RIGHT else dir

/-- All `KEYDOWN` events queued in one tick are processed by one
`pygame.event.get()` loop, folding the per-event update over the direction. -/
def tickKeys (dir : Pos) (ks : List GKey) : Pos :=
  ks.foldl combatant1KeyUpdate dir

/-! ## Concrete states used by witnesses and counterexamples -/

/-- A length-2 reptile at the right edge moving right. -/
def edgeReptile : Reptile :=
  { segments := [⟨59, 10⟩, ⟨58, 10⟩]
    move_direction := MOVE_RIGHT
    vitality := 100
    tally := 0 }

/-- A single-segment reptile at the bottom edge moving down. -/
def bottomReptile : Reptile :=
  { segments := [⟨10, 44⟩]
    move_direction := MOVE_DOWN
    vitality := 100
    tally := 0 }

/-- A reptile one cell above the top edge wrap, with 5 vitality: its next move
lands on `(0, 0)` and both axis penalties fire. -/
def dyingReptile : Reptile :=
  { segments := [⟨0, 44⟩]
    move_direction := MOVE_DOWN
    vitality := 5
    tally := 0 }

/-- A healthy reptile away from every edge and item. -/
def bystanderReptile : Reptile :=
  { segments := [⟨30, 20⟩]
    move_direction := MOVE_RIGHT
    vitality := 100
    tally := 0 }

/-- An in-play single-battle state in which combatant 1 is about to wrap onto
`(0, 0)` and drop to `-5` vitality. -/
def dyingState : MatchController :=
  { isActive := true
    isInPlay := true
    isPaused := false
    isOver := false
    combatant1 := dyingReptile
    combatant2 := bystanderReptile
    restorativeOrbs := []
    lastOrbRegen := 0
    nourishment := ⟨50, 40⟩
    totalRounds := 1
    currentBattle := 1
    isAcceptingInput := false
    enteredText := ""
    scores1 := []
    scores2 := []
    rng := fun _ => ⟨7, 7⟩
    rngIdx := 0
    now := 0 }

/-- `dyingState` with the nourishment placed exactly on the cell the dying
combatant's head wraps onto. -/
def dyingOnFoodState : MatchController :=
  { dyingState with nourishment := ⟨0, 0⟩ }

/-- An in-play state with two orbs stacked on the cell combatant 1's head is
about to enter, combatant 1 at 30 vitality. -/
def doubleOrbState : MatchController :=
  { dyingState with
    combatant1 :=
      { segments := [⟨4, 22⟩]
        move_direction := MOVE_RIGHT
        vitality := 30
        tally := 0 }
    restorativeOrbs := [⟨5, 22⟩, ⟨5, 22⟩] }

/-- A quiet in-play state: nobody near an edge, an orb, the other combatant or
the nourishment, and the orb timer not yet due. -/
def quietState : MatchController :=
  { dyingState with
    combatant1 :=
      { segments := [⟨10, 10⟩]
        move_direction := MOVE_RIGHT
        vitality := 100
        tally := 0 }
    combatant2 :=
      { segments := [⟨30, 30⟩]
        move_direction := MOVE_LEFT
        vitality := 100
        tally := 0 }
    totalRounds := 3 }

/-- The round-configuration screen with the digit `0` entered. -/
def zeroInputState : MatchController :=
  { dyingState with
    isInPlay := false
    isAcceptingInput := true
    enteredText := "0"
    totalRounds := 0 }

/-- A single-segment reptile sitting on the cell `(5, 22)` with 30 vitality. -/
def orbEaterReptile : Reptile :=
  { segments := [⟨5, 22⟩]
    move_direction := MOVE_RIGHT
    vitality := 30
    tally := 0 }

/-- A mid-session state (battle 1 of 3) in which combatant 1 is already at 0
vitality, with a non-zero tally to archive. -/
def downedState : MatchController :=
  { dyingState with
    combatant1 := { dyingReptile with vitality := 0, tally := 15 }
    totalRounds := 3 }

/-! ## Basic lemmas about movement -/

/-- `gridW` evaluates to 60 cells. -/
lemma gridW_eq : gridW = 60 := rfl

/-- `gridH` evaluates to 45 cells. -/
lemma gridH_eq : gridH = 45 := rfl

/-- Unfolding `Reptile.move` on a non-empty body. -/
lemma Reptile.move_cons (r : Reptile) (h : Pos) (rest : List Pos)
    (hseg : r.segments = h :: rest) :
    r.move = some { r with
      segments :=
        Pos.mk ((h.x + r.move_direction.x) % gridW)
          ((h.y + r.move_direction.y) % gridH) :: (h :: rest).dropLast } := by
  obtain ⟨segs, dir, vit, tal⟩ := r
  simp only at hseg
  subst hseg
  simp [Reptile.move]

/-- Unfolding `boundaryPenalty` on a non-empty body. -/
lemma boundaryPenalty_cons (r : Reptile) (h : Pos) (rest : List Pos)
    (hseg : r.segments = h :: rest) :
    boundaryPenalty r = some { r with
      vitality :=
        (if h.y ≤ 0 ∨ gridH ≤ h.y then
          (if h.x ≤ 0 ∨ gridW ≤ h.x then r.vitality - 5 else r.vitality) - 5
         else
          (if h.x ≤ 0 ∨ gridW ≤ h.x then r.vitality - 5 else r.vitality)) } := by
  obtain ⟨segs, dir, vit, tal⟩ := r
  simp only at hseg
  subst hseg
  simp only [boundaryPenalty]
  by_cases hx : h.x ≤ 0 <;> by_cases hx' : gridW ≤ h.x <;>
    by_cases hy : h.y ≤ 0 <;> by_cases hy' : gridH ≤ h.y <;>
    simp [hx, hx', hy, hy']

/-- C1: on a non-empty body with a legal direction, `move()` produces the head
`(old head + direction) mod (60, 45)` at the front, drops the last segment
(the remaining segments are the original list without its last element,
unchanged), and keeps length, direction, vitality and tally. -/
theorem move_wraps_and_shifts (r : Reptile) (h : Pos) (rest : List Pos)
    (hseg : r.segments = h :: rest) (_hdir : r.move_direction ∈ legalDirs) :
    ∃ r', r.move = some r' ∧
      r'.segments =
        Pos.mk ((h.x + r.move_direction.x) % gridW)
          ((h.y + r.move_direction.y) % gridH) :: (h :: rest).dropLast ∧
      gridW = 60 ∧ gridH = 45 ∧
      r'.segments.length = r.segments.length ∧
      r'.move_direction = r.move_direction ∧
      r'.vitality = r.vitality ∧ r'.tally = r.tally := by
  refine ⟨_, r.move_cons h rest hseg, rfl, rfl, rfl, ?_, rfl, rfl, rfl⟩
  simp [hseg, List.length_dropLast]

/-- Witness for C1: `edgeReptile` (right edge, moving right) wraps to column
0, the old head becomes the second segment, the tail cell is dropped. -/
theorem move_wraps_and_shifts_witness :
    edgeReptile.segments = ⟨59, 10⟩ :: [⟨58, 10⟩] ∧
    edgeReptile.move_direction ∈ legalDirs ∧
    ∃ r', edgeReptile.move = some r' ∧
      r'.segments = [⟨0, 10⟩, ⟨59, 10⟩] ∧ r'.segments.length = 2 := by
  refine ⟨rfl, by decide, ?_⟩
  obtain ⟨r', h1, h2, -, -, h3, -⟩ :=
    move_wraps_and_shifts edgeReptile ⟨59, 10⟩ [⟨58, 10⟩] rfl (by decide)
  exact ⟨r', h1, by rw [h2]; decide, by rw [h3]; rfl⟩

/-- C10: after `move()` the head lies in `[0, 59] × [0, 44]`, so the
`>= gridW` / `>= gridH` tests of the edge-penalty block can never fire; the
penalty deducted is exactly 5 per axis whose head coordinate equals 0. -/
theorem boundary_penalty_only_at_zero (r : Reptile) (h : Pos) (rest : List Pos)
    (hseg : r.segments = h :: rest) :
    ∃ r' h₁ t, r.move = some r' ∧ r'.segments = h₁ :: t ∧
      0 ≤ h₁.x ∧ h₁.x < gridW ∧ 0 ≤ h₁.y ∧ h₁.y < gridH ∧
      boundaryPenalty r' = some { r' with
        vitality :=
          r'.vitality - (if h₁.x = 0 then 5 else 0)
                      - (if h₁.y = 0 then 5 else 0) } := by
  have hmv := r.move_cons h rest hseg
  have hx0 : 0 ≤ (h.x + r.move_direction.x) % gridW :=
    Int.emod_nonneg _ (by decide)
  have hxW : (h.x + r.move_direction.x) % gridW < gridW :=
    Int.emod_lt_of_pos _ (by decide)
  have hy0 : 0 ≤ (h.y + r.move_direction.y) % gridH :=
    Int.emod_nonneg _ (by decide)
  have hyH : (h.y + r.move_direction.y) % gridH < gridH :=
    Int.emod_lt_of_pos _ (by decide)
  refine ⟨_, Pos.mk ((h.x + r.move_direction.x) % gridW)
    ((h.y + r.move_direction.y) % gridH), (h :: rest).dropLast, hmv, rfl,
    hx0, hxW, hy0, hyH, ?_⟩
  rw [boundaryPenalty_cons _ _ _ rfl]
  have hxW' : ¬ gridW ≤ (h.x + r.move_direction.x) % gridW := not_le.mpr hxW
  have hyH' : ¬ gridH ≤ (h.y + r.move_direction.y) % gridH := not_le.mpr hyH
  congr 1
  by_cases hx : (h.x + r.move_direction.x) % gridW = 0 <;>
    by_cases hy : (h.y + r.move_direction.y) % gridH = 0 <;>
    simp [hx, hy, hxW', hyH'] <;> omega

/-- Witness for C10: `bottomReptile` (bottom edge, moving down) wraps to row 0
and is penalized on the y axis only. -/
theorem boundary_penalty_only_at_zero_witness :
    bottomReptile.segments = ⟨10, 44⟩ :: [] ∧
    ∃ r' h₁ t, bottomReptile.move = some r' ∧ r'.segments = h₁ :: t ∧
      0 ≤ h₁.x ∧ h₁.x < gridW ∧ 0 ≤ h₁.y ∧ h₁.y < gridH ∧
      boundaryPenalty r' = some { r' with
        vitality :=
          r'.vitality - (if h₁.x = 0 then 5 else 0)
                      - (if h₁.y = 0 then 5 else 0) } := by
  exact ⟨rfl, boundary_penalty_only_at_zero bottomReptile ⟨10, 44⟩ [] rfl⟩

/-! ## Stage lemmas for the per-tick simulation -/

/-- `move()` succeeds on a non-empty body, preserving length, non-emptiness,
vitality, tally and direction. -/
lemma Reptile.move_spec (r : Reptile) (hne : r.segments ≠ []) :
    ∃ r', r.move = some r' ∧ r'.segments ≠ [] ∧
      r'.segments.length = r.segments.length ∧
      r'.vitality = r.vitality ∧ r'.tally = r.tally ∧
      r'.move_direction = r.move_direction := by
  obtain ⟨h, rest, hseg⟩ : ∃ h rest, r.segments = h :: rest := by
    cases hs : r.segments with
    | nil => exact absurd hs hne
    | cons a l => exact ⟨a, l, rfl⟩
  refine ⟨_, r.move_cons h rest hseg, by simp, ?_, rfl, rfl, rfl⟩
  simp [hseg, List.length_dropLast]

/-- The edge-penalty block succeeds on a non-empty body, preserving segments,
tally and direction, and never increasing vitality. -/
lemma boundaryPenalty_spec (r : Reptile) (hne : r.segments ≠ []) :
    ∃ r', boundaryPenalty r = some r' ∧ r'.segments = r.segments ∧
      r'.vitality ≤ r.vitality ∧ r'.tally = r.tally ∧
      r'.move_direction = r.move_direction := by
  obtain ⟨h, rest, hseg⟩ : ∃ h rest, r.segments = h :: rest := by
    cases hs : r.segments with
    | nil => exact absurd hs hne
    | cons a l => exact ⟨a, l, rfl⟩
  refine ⟨_, boundaryPenalty_cons r h rest hseg, rfl, ?_, rfl, rfl⟩
  dsimp only
  split_ifs <;> omega

/-- `expand()` succeeds on a non-empty body and adds exactly one segment,
keeping vitality, tally and direction. -/
lemma Reptile.expand_spec (r : Reptile) (hne : r.segments ≠ []) :
    ∃ r', r.expand = some r' ∧
      r'.segments.length = r.segments.length + 1 ∧ r'.segments ≠ [] ∧
      r'.vitality = r.vitality ∧ r'.tally = r.tally ∧
      r'.move_direction = r.move_direction := by
  cases hl : r.segments.getLast? with
  | none => exact absurd (by simpa using hl) hne
  | some t =>
    refine ⟨{ r with segments := r.segments ++ [t] }, ?_, by simp, by simp,
      rfl, rfl, rfl⟩
    simp [Reptile.expand, hl]

/-- `detect_collision` succeeds on a non-empty body and reports head
equality. -/
lemma Reptile.detect_collision_cons (r : Reptile) (h : Pos) (rest : List Pos)
    (hseg : r.segments = h :: rest) (item : Pos) :
    r.detect_collision item = some (decide (h = item)) := by
  obtain ⟨segs, dir, vit, tal⟩ := r
  simp only at hseg
  subst hseg
  simp [Reptile.detect_collision]

/-- Healing preserves segments, tally and direction, and yields at most 100
vitality. -/
lemma Reptile.heal_spec (r : Reptile) :
    r.heal.segments = r.segments ∧ r.heal.tally = r.tally ∧
    r.heal.move_direction = r.move_direction ∧ r.heal.vitality ≤ 100 := by
  refine ⟨rfl, rfl, rfl, ?_⟩
  simp [Reptile.heal]

/-- Orb replenishment leaves everything but the orb list, the random cursor
and the timestamp unchanged. -/
lemma replenish_fields (m : MatchController) :
    (m.replenish_vitality_orbs).combatant1 = m.combatant1 ∧
    (m.replenish_vitality_orbs).combatant2 = m.combatant2 ∧
    (m.replenish_vitality_orbs).currentBattle = m.currentBattle ∧
    (m.replenish_vitality_orbs).totalRounds = m.totalRounds ∧
    (m.replenish_vitality_orbs).isOver = m.isOver ∧
    (m.replenish_vitality_orbs).isInPlay = m.isInPlay ∧
    (m.replenish_vitality_orbs).scores1 = m.scores1 ∧
    (m.replenish_vitality_orbs).scores2 = m.scores2 := by
  unfold MatchController.replenish_vitality_orbs
  split <;> simp

/-- Stage 1-3 of the tick succeeds whenever both bodies are non-empty; body
lengths, tallies, battle index, round total and the over flag are unchanged,
and vitality never increases. -/
lemma tickMovePenalty_spec (m : MatchController)
    (h1 : m.combatant1.segments ≠ []) (h2 : m.combatant2.segments ≠ []) :
    ∃ m1, m.tickMovePenalty = some m1 ∧
      m1.combatant1.segments ≠ [] ∧ m1.combatant2.segments ≠ [] ∧
      m1.combatant1.segments.length = m.combatant1.segments.length ∧
      m1.combatant2.segments.length = m.combatant2.segments.length ∧
      m1.combatant1.vitality ≤ m.combatant1.vitality ∧
      m1.combatant2.vitality ≤ m.combatant2.vitality ∧
      m1.combatant1.tally = m.combatant1.tally ∧
      m1.combatant2.tally = m.combatant2.tally ∧
      m1.currentBattle = m.currentBattle ∧
      m1.totalRounds = m.totalRounds ∧
      m1.isOver = m.isOver := by
  obtain ⟨e1, e2, e3, e4, e5, e6, e7, e8⟩ := replenish_fields m
  obtain ⟨c1a, hc1a, hne1a, hlen1a, hv1a, ht1a, hd1a⟩ :=
    Reptile.move_spec (m.replenish_vitality_orbs).combatant1 (by rw [e1]; exact h1)
  obtain ⟨c1b, hc1b, hseg1b, hv1b, ht1b, hd1b⟩ := boundaryPenalty_spec c1a hne1a
  obtain ⟨c2a, hc2a, hne2a, hlen2a, hv2a, ht2a, hd2a⟩ :=
    Reptile.move_spec (m.replenish_vitality_orbs).combatant2 (by rw [e2]; exact h2)
  obtain ⟨c2b, hc2b, hseg2b, hv2b, ht2b, hd2b⟩ := boundaryPenalty_spec c2a hne2a
  refine ⟨{ m.replenish_vitality_orbs with combatant1 := c1b, combatant2 := c2b },
    ?_, ?_, ?_, ?_, ?_, ?_, ?_, ?_, ?_, ?_, ?_, ?_⟩
  · simp [MatchController.tickMovePenalty, hc1a, hc1b, hc2a, hc2b]
  · simpa [hseg1b] using hne1a
  · simpa [hseg2b] using hne2a
  · simp only [hseg1b]; rw [hlen1a, e1]
  · simp only [hseg2b]; rw [hlen2a, e2]
  · simp only []; rw [← e1, ← hv1a]; exact hv1b
  · simp only []; rw [← e2, ← hv2a]; exact hv2b
  · simp only []; rw [ht1b, ht1a, e1]
  · simp only []; rw [ht2b, ht2a, e2]
  · exact e3
  · exact e4
  · exact e5

/-- Full case analysis of the battle-termination block. -/
lemma battleEndCheck_cases (m : MatchController) :
    (¬ (m.combatant1.vitality ≤ 0 ∨ m.combatant2.vitality ≤ 0) →
      m.battleEndCheck = m) ∧
    ((m.combatant1.vitality ≤ 0 ∨ m.combatant2.vitality ≤ 0) →
      m.battleEndCheck.scores1 = m.scores1 ++ [m.combatant1.tally] ∧
      m.battleEndCheck.scores2 = m.scores2 ++ [m.combatant2.tally] ∧
      (m.currentBattle < m.totalRounds →
        m.battleEndCheck.currentBattle = m.currentBattle + 1 ∧
        m.battleEndCheck.combatant1 =
          { Reptile.init spawn1 MOVE_RIGHT with vitality := 100 } ∧
        m.battleEndCheck.combatant2 =
          { Reptile.init spawn2 MOVE_LEFT with vitality := 100 } ∧
        m.battleEndCheck.restorativeOrbs = [] ∧
        m.battleEndCheck.nourishment = m.rng m.rngIdx ∧
        m.battleEndCheck.isOver = m.isOver ∧
        m.battleEndCheck.isInPlay = m.isInPlay) ∧
      (¬ m.currentBattle < m.totalRounds →
        m.battleEndCheck.isOver = true ∧
        m.battleEndCheck.currentBattle = m.currentBattle ∧
        m.battleEndCheck.combatant1 = m.combatant1 ∧
        m.battleEndCheck.combatant2 = m.combatant2 ∧
        m.battleEndCheck.isInPlay = m.isInPlay ∧
        m.battleEndCheck.nourishment = m.nourishment ∧
        m.battleEndCheck.restorativeOrbs = m.restorativeOrbs)) := by
  refine ⟨fun h => by simp [MatchController.battleEndCheck, h], fun h => ?_⟩
  by_cases hlt : m.currentBattle < m.totalRounds <;>
    simp [MatchController.battleEndCheck, h, hlt, MatchController.archive_scores,
      MatchController.initialize_next_battle, MatchController.generate_nourishment]

/-- The battle-termination block either keeps both combatants or replaces both
with freshly initialized ones. -/
lemma battleEndCheck_combatants (m : MatchController) :
    (m.battleEndCheck.combatant1 = m.combatant1 ∧
     m.battleEndCheck.combatant2 = m.combatant2) ∨
    (m.battleEndCheck.combatant1 =
      { Reptile.init spawn1 MOVE_RIGHT with vitality := 100 } ∧
     m.battleEndCheck.combatant2 =
      { Reptile.init spawn2 MOVE_LEFT with vitality := 100 }) := by
  by_cases h : m.combatant1.vitality ≤ 0 ∨ m.combatant2.vitality ≤ 0
  · by_cases hlt : m.currentBattle < m.totalRounds
    · right
      simp [MatchController.battleEndCheck, h, hlt, MatchController.archive_scores,
        MatchController.initialize_next_battle, MatchController.generate_nourishment]
    · left
      simp [MatchController.battleEndCheck, h, hlt, MatchController.archive_scores,
        MatchController.initialize_next_battle, MatchController.generate_nourishment]
  · left
    simp [MatchController.battleEndCheck, h]

/-- The orb loop succeeds whenever both bodies are non-empty; it never touches
segments, tallies or directions, and healing keeps vitality at or below 100. -/
lemma orbScan_spec (snap : List Pos) :
    ∀ (live : List Pos) (c1 c2 : Reptile), c1.segments ≠ [] → c2.segments ≠ [] →
    ∃ l c1' c2', orbScan snap live c1 c2 = some (l, c1', c2') ∧
      c1'.segments = c1.segments ∧ c2'.segments = c2.segments ∧
      c1'.tally = c1.tally ∧ c2'.tally = c2.tally ∧
      c1'.move_direction = c1.move_direction ∧
      c2'.move_direction = c2.move_direction ∧
      (c1.vitality ≤ 100 → c1'.vitality ≤ 100) ∧
      (c2.vitality ≤ 100 → c2'.vitality ≤ 100) := by
  induction snap with
  | nil =>
    intro live c1 c2 h1 h2
    exact ⟨live, c1, c2, rfl, rfl, rfl, rfl, rfl, rfl, rfl, id, id⟩
  | cons orb rest ih =>
    intro live c1 c2 h1 h2
    obtain ⟨a1, t1, hs1⟩ : ∃ a t, c1.segments = a :: t := by
      cases hs : c1.segments with
      | nil => exact absurd hs h1
      | cons a t => exact ⟨a, t, rfl⟩
    obtain ⟨a2, t2, hs2⟩ : ∃ a t, c2.segments = a :: t := by
      cases hs : c2.segments with
      | nil => exact absurd hs h2
      | cons a t => exact ⟨a, t, rfl⟩
    have hd1 := c1.detect_collision_cons a1 t1 hs1 orb
    have hd2 := c2.detect_collision_cons a2 t2 hs2 orb
    by_cases hhit1 : a1 = orb
    · have hstep : orbScan (orb :: rest) live c1 c2 =
          orbScan rest (live.erase orb) c1.heal c2 := by
        simp [orbScan, hd1, hhit1]
      obtain ⟨hs1h, ht1h, hm1h, hv1h⟩ := c1.heal_spec
      obtain ⟨l, c1', c2', heq, f1, f2, f3, f4, f5, f6, f7, f8⟩ :=
        ih (live.erase orb) c1.heal c2 (by rw [hs1h]; exact h1) h2
      exact ⟨l, c1', c2', hstep.trans heq, f1.trans hs1h, f2,
        f3.trans ht1h, f4, f5.trans hm1h, f6, fun _ => f7 hv1h, f8⟩
    · by_cases hhit2 : a2 = orb
      · have hstep : orbScan (orb :: rest) live c1 c2 =
            orbScan rest (live.erase orb) c1 c2.heal := by
          simp [orbScan, hd1, hd2, hhit1, hhit2]
        obtain ⟨hs2h, ht2h, hm2h, hv2h⟩ := c2.heal_spec
        obtain ⟨l, c1', c2', heq, f1, f2, f3, f4, f5, f6, f7, f8⟩ :=
          ih (live.erase orb) c1 c2.heal h1 (by rw [hs2h]; exact h2)
        exact ⟨l, c1', c2', hstep.trans heq, f1, f2.trans hs2h,
          f3, f4.trans ht2h, f5, f6.trans hm2h, f7, fun _ => f8 hv2h⟩
      · have hstep : orbScan (orb :: rest) live c1 c2 =
            orbScan rest live c1 c2 := by
          simp [orbScan, hd1, hd2, hhit1, hhit2]
        obtain ⟨l, c1', c2', heq, rels⟩ := ih live c1 c2 h1 h2
        exact ⟨l, c1', c2', hstep.trans heq, rels⟩

/-- The combatant-versus-combatant block succeeds whenever both bodies are
non-empty; it never touches segments, tallies or directions, and never
increases vitality. -/
lemma creatureClash_spec (c1 c2 : Reptile)
    (h1 : c1.segments ≠ []) (h2 : c2.segments ≠ []) :
    ∃ c1' c2', creatureClash c1 c2 = some (c1', c2') ∧
      c1'.segments = c1.segments ∧ c2'.segments = c2.segments ∧
      c1'.tally = c1.tally ∧ c2'.tally = c2.tally ∧
      c1'.vitality ≤ c1.vitality ∧ c2'.vitality ≤ c2.vitality ∧
      c1'.move_direction = c1.move_direction ∧
      c2'.move_direction = c2.move_direction := by
  obtain ⟨a1, t1, hs1⟩ : ∃ a t, c1.segments = a :: t := by
    cases hs : c1.segments with
    | nil => exact absurd hs h1
    | cons a t => exact ⟨a, t, rfl⟩
  obtain ⟨a2, t2, hs2⟩ : ∃ a t, c2.segments = a :: t := by
    cases hs : c2.segments with
    | nil => exact absurd hs h2
    | cons a t => exact ⟨a, t, rfl⟩
  have hcc : creatureClash c1 c2 = some
      (if a1 ∈ c2.segments then { c1 with vitality := c1.vitality - 5 } else c1,
       if a2 ∈ c1.segments then { c2 with vitality := c2.vitality - 5 } else c2) := by
    rw [creatureClash]
    rw [hs1, hs2]
  refine ⟨_, _, hcc, ?_, ?_, ?_, ?_, ?_, ?_, ?_, ?_⟩ <;>
    by_cases hm1 : a1 ∈ c2.segments <;> by_cases hm2 : a2 ∈ c1.segments <;>
    simp [hm1, hm2]

/-- The combatant-1 nourishment block succeeds whenever combatant 1's body is
non-empty: on a hit, tally +5, one extra segment and fresh nourishment; on a
miss, the state is untouched. -/
lemma foodCheck1_spec (m : MatchController) (h1 : m.combatant1.segments ≠ []) :
    ∃ m', m.foodCheck1 = some m' ∧
      m'.combatant2 = m.combatant2 ∧
      m'.currentBattle = m.currentBattle ∧
      m'.isOver = m.isOver ∧
      m'.combatant1.vitality = m.combatant1.vitality ∧
      m'.combatant1.segments ≠ [] ∧
      m.combatant1.segments.length ≤ m'.combatant1.segments.length ∧
      (m.combatant1.detect_collision m.nourishment = some true →
        m'.combatant1.tally = m.combatant1.tally + 5 ∧
        m'.combatant1.segments.length = m.combatant1.segments.length + 1 ∧
        m'.nourishment = m.rng m.rngIdx) ∧
      (m.combatant1.detect_collision m.nourishment = some false → m' = m) := by
  obtain ⟨a1, t1, hs1⟩ : ∃ a t, m.combatant1.segments = a :: t := by
    cases hs : m.combatant1.segments with
    | nil => exact absurd hs h1
    | cons a t => exact ⟨a, t, rfl⟩
  have hd := m.combatant1.detect_collision_cons a1 t1 hs1 m.nourishment
  by_cases hhit : a1 = m.nourishment
  · obtain ⟨c1e, hce, hlen, hne', hv, ht, hdm⟩ := m.combatant1.expand_spec h1
    refine ⟨{ m with rngIdx := m.rngIdx + 1
                     nourishment := m.rng m.rngIdx
                     combatant1 := { c1e with tally := c1e.tally + 5 } },
      ?_, rfl, rfl, rfl, hv, hne',
      by show m.combatant1.segments.length ≤ c1e.segments.length; omega,
      fun _ => ⟨by rw [← ht], hlen, rfl⟩,
      fun hf => by rw [hd] at hf; simp [hhit] at hf⟩
    simp [MatchController.foodCheck1, hd, hhit,
      MatchController.generate_nourishment, hce]
  · refine ⟨m, ?_, rfl, rfl, rfl, rfl, h1, le_refl _,
      fun hf => by rw [hd] at hf; simp [hhit] at hf, fun _ => rfl⟩
    simp [MatchController.foodCheck1, hd, hhit]

/-- The combatant-2 nourishment block, mirror of `foodCheck1_spec`. -/
lemma foodCheck2_spec (m : MatchController) (h2 : m.combatant2.segments ≠ []) :
    ∃ m', m.foodCheck2 = some m' ∧
      m'.combatant1 = m.combatant1 ∧
      m'.currentBattle = m.currentBattle ∧
      m'.isOver = m.isOver ∧
      m'.combatant2.vitality = m.combatant2.vitality ∧
      m'.combatant2.segments ≠ [] ∧
      m.combatant2.segments.length ≤ m'.combatant2.segments.length ∧
      (m.combatant2.detect_collision m.nourishment = some true →
        m'.combatant2.tally = m.combatant2.tally + 5 ∧
        m'.combatant2.segments.length = m.combatant2.segments.length + 1 ∧
        m'.nourishment = m.rng m.rngIdx) ∧
      (m.combatant2.detect_collision m.nourishment = some false → m' = m) := by
  obtain ⟨a2, t2, hs2⟩ : ∃ a t, m.combatant2.segments = a :: t := by
    cases hs : m.combatant2.segments with
    | nil => exact absurd hs h2
    | cons a t => exact ⟨a, t, rfl⟩
  have hd := m.combatant2.detect_collision_cons a2 t2 hs2 m.nourishment
  by_cases hhit : a2 = m.nourishment
  · obtain ⟨c2e, hce, hlen, hne', hv, ht, hdm⟩ := m.combatant2.expand_spec h2
    refine ⟨{ m with rngIdx := m.rngIdx + 1
                     nourishment := m.rng m.rngIdx
                     combatant2 := { c2e with tally := c2e.tally + 5 } },
      ?_, rfl, rfl, rfl, hv, hne',
      by show m.combatant2.segments.length ≤ c2e.segments.length; omega,
      fun _ => ⟨by rw [← ht], hlen, rfl⟩,
      fun hf => by rw [hd] at hf; simp [hhit] at hf⟩
    simp [MatchController.foodCheck2, hd, hhit,
      MatchController.generate_nourishment, hce]
  · refine ⟨m, ?_, rfl, rfl, rfl, rfl, h2, le_refl _,
      fun hf => by rw [hd] at hf; simp [hhit] at hf, fun _ => rfl⟩
    simp [MatchController.foodCheck2, hd, hhit]

/-- Stages 5-7 of the tick succeed whenever both bodies are non-empty; body
lengths never shrink, the 100-vitality cap is preserved, and the battle index
and over flag are unchanged. -/
lemma interactions_spec (m : MatchController)
    (h1 : m.combatant1.segments ≠ []) (h2 : m.combatant2.segments ≠ []) :
    ∃ m', m.interactions = some m' ∧
      m.combatant1.segments.length ≤ m'.combatant1.segments.length ∧
      m.combatant2.segments.length ≤ m'.combatant2.segments.length ∧
      (m.combatant1.vitality ≤ 100 → m'.combatant1.vitality ≤ 100) ∧
      (m.combatant2.vitality ≤ 100 → m'.combatant2.vitality ≤ 100) ∧
      m'.currentBattle = m.currentBattle ∧
      m'.isOver = m.isOver := by
  obtain ⟨l, c1a, c2a, ho, o1, o2, o3, o4, o5, o6, o7, o8⟩ :=
    orbScan_spec m.restorativeOrbs m.restorativeOrbs m.combatant1 m.combatant2 h1 h2
  obtain ⟨c1b, c2b, hcl, k1, k2, k3, k4, k5, k6, k7, k8⟩ :=
    creatureClash_spec c1a c2a (by rw [o1]; exact h1) (by rw [o2]; exact h2)
  have hne1b : c1b.segments ≠ [] := by rw [k1, o1]; exact h1
  have hne2b : c2b.segments ≠ [] := by rw [k2, o2]; exact h2
  obtain ⟨mc, hf1, g1, g2, g3, g4, g5, g6, g7, g8⟩ :=
    foodCheck1_spec { m with restorativeOrbs := l, combatant1 := c1b, combatant2 := c2b }
      hne1b
  obtain ⟨m', hf2, p1, p2, p3, p4, p5, p6, p7, p8⟩ :=
    foodCheck2_spec mc (by rw [g1]; exact hne2b)
  refine ⟨m', ?_, ?_, ?_, ?_, ?_, ?_, ?_⟩
  · show m.interactions = some m'
    simp only [MatchController.interactions, ho, hcl, Option.some_bind]
    rw [hf1, Option.some_bind, hf2]
  · calc m.combatant1.segments.length
        = c1b.segments.length := by rw [k1, o1]
      _ ≤ mc.combatant1.segments.length := g6
      _ = m'.combatant1.segments.length := by rw [p1]
  · calc m.combatant2.segments.length
        = c2b.segments.length := by rw [k2, o2]
      _ = mc.combatant2.segments.length := by rw [g1]
      _ ≤ m'.combatant2.segments.length := p6
  · intro hv
    have h100a : c1a.vitality ≤ 100 := o7 hv
    have h100b : c1b.vitality ≤ 100 := le_trans k5 h100a
    have : m'.combatant1.vitality = c1b.vitality := by rw [p1, g4]
    omega
  · intro hv
    have h100a : c2a.vitality ≤ 100 := o8 hv
    have h100b : c2b.vitality ≤ 100 := le_trans k6 h100a
    have hceq : mc.combatant2 = c2b := g1
    have : m'.combatant2.vitality = c2b.vitality := by rw [p4, hceq]
    omega
  · rw [p2, g2]
  · rw [p3, g3]

/-! ## Claim theorems -/

/-- C7 counterexample: a creature moving right, receiving W then A in the same
tick, ends the tick moving left — the exact opposite of its direction at the
start of the tick. -/
theorem reversal_possible_within_tick :
    tickKeys MOVE_RIGHT [GKey.w, GKey.a] = MOVE_RIGHT.opposite := by decide

/-- C7 amended: the guard compares each direction-change event against the
direction current at the time of that event, so a single event can never set
the exact opposite of the current direction, and an unrelated direction (up,
while moving right) is accepted; across several events in one tick the
direction can nevertheless end opposite to the tick-start direction. -/
theorem single_event_reversal_guard (dir : Pos) (k : GKey)
    (hdir : dir ∈ legalDirs) :
    combatant1KeyUpdate dir k ≠ dir.opposite ∧
    combatant1KeyUpdate MOVE_RIGHT GKey.w = MOVE_UP := by
  refine ⟨?_, by decide⟩
  have hd : dir = MOVE_RIGHT ∨ dir = MOVE_LEFT ∨ dir = MOVE_UP ∨ dir = MOVE_DOWN := by
    simpa [legalDirs] using hdir
  rcases hd with h | h | h | h <;> subst h <;> cases k <;> decide

/-- Witness for the amended C7: a rightward creature receiving A keeps moving
right. -/
theorem single_event_reversal_guard_witness :
    MOVE_RIGHT ∈ legalDirs ∧
    combatant1KeyUpdate MOVE_RIGHT GKey.a ≠ MOVE_RIGHT.opposite ∧
    combatant1KeyUpdate MOVE_RIGHT GKey.w = MOVE_UP := by
  have h := single_event_reversal_guard MOVE_RIGHT GKey.a (by decide)
  exact ⟨by decide, h.1, h.2⟩

/-- C6 counterexample: with the buffer `"0"`, the confirm branch does not
discard the input — it sets `totalRounds := 0` and starts play. -/
theorem zero_round_input_accepted :
    zeroInputState.enteredText = "0" ∧
    zeroInputState.isInPlay = false ∧
    zeroInputState.confirm_rounds.isInPlay = true ∧
    zeroInputState.confirm_rounds.totalRounds = 0 := ⟨rfl, rfl, rfl, rfl⟩

/-- C6 amended: only buffers on which `int()` fails (non-numeric, in practice
the empty buffer) are discarded — buffer cleared, everything else unchanged,
no exception; a buffer parsing to any integer n, including 0, sets
`totalRounds := n`, clears the buffer, leaves input mode and starts play. -/
theorem confirm_rounds_spec (m : MatchController) :
    (int_of_buffer m.enteredText = none →
      m.confirm_rounds = { m with enteredText := "" }) ∧
    (∀ n, int_of_buffer m.enteredText = some n →
      m.confirm_rounds = { m with
        totalRounds := n
        enteredText := ""
        isAcceptingInput := false
        isInPlay := true }) := by
  constructor
  · intro h
    simp [MatchController.confirm_rounds, h]
  · intro n h
    simp [MatchController.confirm_rounds, h]

/-- Witness for the amended C6: the buffer `"0"` parses to 0 and starts play. -/
theorem confirm_rounds_spec_witness :
    int_of_buffer zeroInputState.enteredText = some 0 ∧
    zeroInputState.confirm_rounds = { zeroInputState with
      totalRounds := 0
      enteredText := ""
      isAcceptingInput := false
      isInPlay := true } :=
  ⟨rfl, (confirm_rounds_spec zeroInputState).2 0 rfl⟩

/-- C5 counterexample: two orbs stacked on the cell combatant 1 enters are
both consumed in a single tick (vitality 30 → 90, i.e. two +30 heals), so the
scan does not stop at the first matching orb. -/
theorem two_orbs_consumed_in_one_tick :
    doubleOrbState.restorativeOrbs = [⟨5, 22⟩, ⟨5, 22⟩] ∧
    doubleOrbState.combatant1.vitality = 30 ∧
    (doubleOrbState.advance_game).map
      (fun mm => (mm.combatant1.vitality, mm.restorativeOrbs)) =
      some (90, []) := ⟨rfl, rfl, rfl⟩

/-- C5 amended: the orb loop tests combatant 1 before combatant 2 on each orb
but does not stop after a match: every orb lying on a creature's head is
consumed in the same tick, each applying the +30 heal clamped at 100. -/
theorem orb_scan_consumes_every_match (c1 c2 : Reptile) (p q : Pos)
    (t1 t2 : List Pos)
    (h1 : c1.segments = p :: t1) (_h2 : c2.segments = q :: t2) (_hq : q ≠ p) :
    orbScan [p, p] [p, p] c1 c2 = some ([], c1.heal.heal, c2) ∧
    c1.heal.heal.vitality = min (min (c1.vitality + 30) 100 + 30) 100 := by
  have hd1 := c1.detect_collision_cons p t1 h1 p
  have hs1h : c1.heal.segments = p :: t1 := by
    rw [c1.heal_spec.1, h1]
  have hd1h := (c1.heal).detect_collision_cons p t1 hs1h p
  refine ⟨?_, rfl⟩
  simp [orbScan, hd1, hd1h, List.erase_cons_head]

/-- Witness for the amended C5: a creature at `(5, 22)` with 30 vitality
consumes both stacked orbs, reaching 90. -/
theorem orb_scan_consumes_every_match_witness :
    orbEaterReptile.segments = ⟨5, 22⟩ :: [] ∧
    bystanderReptile.segments = ⟨30, 20⟩ :: [] ∧
    (⟨30, 20⟩ : Pos) ≠ ⟨5, 22⟩ ∧
    orbScan [⟨5, 22⟩, ⟨5, 22⟩] [⟨5, 22⟩, ⟨5, 22⟩] orbEaterReptile bystanderReptile =
      some ([], orbEaterReptile.heal.heal, bystanderReptile) ∧
    orbEaterReptile.heal.heal.vitality = 90 := by
  have h := orb_scan_consumes_every_match orbEaterReptile bystanderReptile
    ⟨5, 22⟩ ⟨30, 20⟩ [] [] rfl rfl (by decide)
  exact ⟨rfl, rfl, by decide, h.1, by decide⟩

/-- C2 counterexample: a creature with 5 vitality whose head wraps onto
`(0, 0)` takes both axis penalties and ends the tick at −5 vitality — health
is not clamped to `[0, 100]` and in particular becomes negative. -/
theorem vitality_becomes_negative :
    dyingState.combatant1.vitality = 5 ∧
    (dyingState.advance_game).map (fun mm => mm.combatant1.vitality) =
      some (-5) := ⟨rfl, rfl⟩

/-- C2 amended: health is clamped only from above — orb healing and battle
reset never push vitality past 100, so 100 is preserved across a tick — but
the −5 penalties are applied without a lower clamp, so vitality can become
negative (see the counterexample). -/
theorem vitality_capped_above (m m' : MatchController)
    (h1 : m.combatant1.segments ≠ []) (h2 : m.combatant2.segments ≠ [])
    (hv1 : m.combatant1.vitality ≤ 100) (hv2 : m.combatant2.vitality ≤ 100)
    (h : m.advance_game = some m') :
    m'.combatant1.vitality ≤ 100 ∧ m'.combatant2.vitality ≤ 100 := by
  obtain ⟨m1, ht, tn1, tn2, tl1, tl2, tv1, tv2, tt1, tt2, tb, tr, tov⟩ :=
    tickMovePenalty_spec m h1 h2
  rw [MatchController.advance_game, ht, Option.some_bind] at h
  have hfields : m1.battleEndCheck.combatant1.vitality ≤ 100 ∧
      m1.battleEndCheck.combatant2.vitality ≤ 100 ∧
      m1.battleEndCheck.combatant1.segments ≠ [] ∧
      m1.battleEndCheck.combatant2.segments ≠ [] := by
    rcases battleEndCheck_combatants m1 with ⟨e1, e2⟩ | ⟨e1, e2⟩ <;> rw [e1, e2]
    · exact ⟨by omega, by omega, tn1, tn2⟩
    · exact ⟨le_refl _, le_refl _, by simp [Reptile.init], by simp [Reptile.init]⟩
  obtain ⟨hb1, hb2, hbn1, hbn2⟩ := hfields
  obtain ⟨m'', heq, i1, i2, i3, i4, i5, i6⟩ :=
    interactions_spec m1.battleEndCheck hbn1 hbn2
  have hmm : m'' = m' := by
    rw [heq] at h
    exact Option.some.inj h
  subst hmm
  exact ⟨i3 hb1, i4 hb2⟩

/-- Witness for the amended C2: a quiet full-health tick stays at 100. -/
theorem vitality_capped_above_witness :
    quietState.combatant1.segments ≠ [] ∧ quietState.combatant2.segments ≠ [] ∧
    quietState.combatant1.vitality ≤ 100 ∧
    quietState.combatant2.vitality ≤ 100 ∧
    ∃ m', quietState.advance_game = some m' ∧
      m'.combatant1.vitality ≤ 100 ∧ m'.combatant2.vitality ≤ 100 := by
  have hs : (quietState.advance_game).isSome = true := rfl
  have heq : quietState.advance_game = some ((quietState.advance_game).get hs) :=
    (Option.some_get hs).symm
  have hmain := vitality_capped_above quietState ((quietState.advance_game).get hs)
    (by decide) (by decide) (by decide) (by decide) heq
  exact ⟨by decide, by decide, by decide, by decide, _, heq, hmain.1, hmain.2⟩

/-- C3: whenever some creature's vitality is ≤ 0 at the battle-termination
block, both per-battle scores are archived, and then: if the battle index is
strictly below the configured total, the index is incremented and both
creatures (full health, spawn cells), the nourishment and the orb set are
reinitialized with the play flags unchanged; otherwise the session-over flag
is set.  Iterating this rule from `totalBattles = 3` yields `SESSION_OVER`
after the third battle-ending event, and battle index 3 with reset creatures
after the second. -/
theorem battle_end_transition (m : MatchController)
    (hend : m.combatant1.vitality ≤ 0 ∨ m.combatant2.vitality ≤ 0) :
    m.battleEndCheck.scores1 = m.scores1 ++ [m.combatant1.tally] ∧
    m.battleEndCheck.scores2 = m.scores2 ++ [m.combatant2.tally] ∧
    (m.currentBattle < m.totalRounds →
      m.battleEndCheck.currentBattle = m.currentBattle + 1 ∧
      m.battleEndCheck.combatant1.segments = [spawn1] ∧
      m.battleEndCheck.combatant1.vitality = 100 ∧
      m.battleEndCheck.combatant1.move_direction = MOVE_RIGHT ∧
      m.battleEndCheck.combatant2.segments = [spawn2] ∧
      m.battleEndCheck.combatant2.vitality = 100 ∧
      m.battleEndCheck.combatant2.move_direction = MOVE_LEFT ∧
      m.battleEndCheck.restorativeOrbs = [] ∧
      m.battleEndCheck.nourishment = m.rng m.rngIdx ∧
      m.battleEndCheck.isOver = m.isOver ∧
      m.battleEndCheck.isInPlay = m.isInPlay) ∧
    (¬ m.currentBattle < m.totalRounds →
      m.battleEndCheck.isOver = true) := by
  obtain ⟨-, hf⟩ := battleEndCheck_cases m
  obtain ⟨hs1, hs2, hlt, hge⟩ := hf hend
  refine ⟨hs1, hs2, fun h => ?_, fun h => (hge h).1⟩
  obtain ⟨ha, hb, hc, hd, he, hf', hg⟩ := hlt h
  exact ⟨ha, by simp [hb, Reptile.init], by simp [hb, Reptile.init],
    by simp [hb, Reptile.init], by simp [hc, Reptile.init],
    by simp [hc, Reptile.init], by simp [hc, Reptile.init], hd, he, hf', hg⟩

/-- Witness for C3: a downed creature mid-session (battle 1 of 3) triggers
archiving and reinitialization with battle index 2. -/
theorem battle_end_transition_witness :
    (downedState.combatant1.vitality ≤ 0 ∨ downedState.combatant2.vitality ≤ 0) ∧
    downedState.battleEndCheck.scores1 = [15] ∧
    downedState.battleEndCheck.scores2 = [0] ∧
    downedState.battleEndCheck.currentBattle = 2 ∧
    downedState.battleEndCheck.combatant1.segments = [spawn1] ∧
    downedState.battleEndCheck.combatant1.vitality = 100 ∧
    downedState.battleEndCheck.restorativeOrbs = [] := by
  have h := battle_end_transition downedState (Or.inl (by decide))
  obtain ⟨hs1, hs2, hlt, -⟩ := h
  obtain ⟨ha, hb, hc, -, -, -, -, hd, -, -, -⟩ := hlt (by decide)
  refine ⟨Or.inl (by decide), ?_, ?_, ?_, hb, hc, hd⟩
  · rw [hs1]
    decide
  · rw [hs2]
    decide
  · rw [ha]
    decide

/-- C8: a full tick never fails on states with non-empty bodies — in
particular a tick in which a creature is downed completes the score-archiving
battle-end sequence — and the (spec-modelled) session restart always produces
a reset state. -/
theorem battle_end_no_exception (m : MatchController)
    (h1 : m.combatant1.segments ≠ []) (h2 : m.combatant2.segments ≠ []) :
    (m.advance_game).isSome = true ∧
    (m.restart_battle).currentBattle = 1 ∧
    (m.restart_battle).scores1 = [] ∧
    (m.restart_battle).scores2 = [] := by
  refine ⟨?_, rfl, rfl, rfl⟩
  obtain ⟨m1, ht, tn1, tn2, tl1, tl2, tv1, tv2, tt1, tt2, tb, tr, tov⟩ :=
    tickMovePenalty_spec m h1 h2
  have hbn : m1.battleEndCheck.combatant1.segments ≠ [] ∧
      m1.battleEndCheck.combatant2.segments ≠ [] := by
    rcases battleEndCheck_combatants m1 with ⟨e1, e2⟩ | ⟨e1, e2⟩ <;> rw [e1, e2]
    · exact ⟨tn1, tn2⟩
    · exact ⟨by simp [Reptile.init], by simp [Reptile.init]⟩
  obtain ⟨m'', heq, -⟩ := interactions_spec m1.battleEndCheck hbn.1 hbn.2
  rw [MatchController.advance_game, ht, Option.some_bind, heq]
  rfl

/-- Witness for C8: the tick is exercised on a state whose first creature is
already at 0 vitality, so the battle-end branch (archiving included) runs. -/
theorem battle_end_no_exception_witness :
    downedState.combatant1.segments ≠ [] ∧
    downedState.combatant2.segments ≠ [] ∧
    downedState.combatant1.vitality = 0 ∧
    (downedState.advance_game).isSome = true ∧
    (downedState.restart_battle).currentBattle = 1 ∧
    (downedState.restart_battle).scores1 = [] ∧
    (downedState.restart_battle).scores2 = [] := by
  have h := battle_end_no_exception downedState (by decide) (by decide)
  exact ⟨by decide, by decide, rfl, h.1, h.2.1, h.2.2.1, h.2.2.2⟩

/-- C9: across a tick that stays within the same battle (no battle-end reset:
the battle index and over flag are unchanged and the session is not over),
neither creature's body length decreases — movement preserves length and food
consumption adds one segment. -/
theorem body_length_never_decreases (m m' : MatchController)
    (h1 : m.combatant1.segments ≠ []) (h2 : m.combatant2.segments ≠ [])
    (hnotover : m.isOver = false)
    (h : m.advance_game = some m')
    (hbat : m'.currentBattle = m.currentBattle)
    (hov : m'.isOver = m.isOver) :
    m.combatant1.segments.length ≤ m'.combatant1.segments.length ∧
    m.combatant2.segments.length ≤ m'.combatant2.segments.length := by
  obtain ⟨m1, ht, tn1, tn2, tl1, tl2, tv1, tv2, tt1, tt2, tb, tr, tov⟩ :=
    tickMovePenalty_spec m h1 h2
  rw [MatchController.advance_game, ht, Option.some_bind] at h
  by_cases hflag : m1.combatant1.vitality ≤ 0 ∨ m1.combatant2.vitality ≤ 0
  · exfalso
    obtain ⟨-, hfin⟩ := battleEndCheck_cases m1
    obtain ⟨-, -, hlt', hge'⟩ := hfin hflag
    have hbn : m1.battleEndCheck.combatant1.segments ≠ [] ∧
        m1.battleEndCheck.combatant2.segments ≠ [] := by
      rcases battleEndCheck_combatants m1 with ⟨e1, e2⟩ | ⟨e1, e2⟩ <;> rw [e1, e2]
      · exact ⟨tn1, tn2⟩
      · exact ⟨by simp [Reptile.init], by simp [Reptile.init]⟩
    obtain ⟨m'', heq, i1, i2, i3, i4, i5, i6⟩ :=
      interactions_spec m1.battleEndCheck hbn.1 hbn.2
    have hmm : m'' = m' := by
      rw [heq] at h
      exact Option.some.inj h
    subst hmm
    by_cases hlt : m1.currentBattle < m1.totalRounds
    · obtain ⟨hcb, -⟩ := hlt' hlt
      have e := i5.trans hcb
      rw [hbat, tb] at e
      omega
    · obtain ⟨hovr, -⟩ := hge' hlt
      have e := i6.trans hovr
      rw [hov, hnotover] at e
      simp at e
  · have hB := (battleEndCheck_cases m1).1 hflag
    rw [hB] at h
    obtain ⟨m'', heq, i1, i2, i3, i4, i5, i6⟩ := interactions_spec m1 tn1 tn2
    have hmm : m'' = m' := by
      rw [heq] at h
      exact Option.some.inj h
    subst hmm
    exact ⟨tl1 ▸ i1, tl2 ▸ i2⟩

/-- Witness for C9: a quiet in-battle tick keeps both single-segment bodies at
length 1. -/
theorem body_length_never_decreases_witness :
    quietState.combatant1.segments ≠ [] ∧
    quietState.combatant2.segments ≠ [] ∧
    quietState.isOver = false ∧
    ∃ m', quietState.advance_game = some m' ∧
      m'.currentBattle = quietState.currentBattle ∧
      m'.isOver = quietState.isOver ∧
      quietState.combatant1.segments.length ≤ m'.combatant1.segments.length ∧
      quietState.combatant2.segments.length ≤ m'.combatant2.segments.length := by
  have hs : (quietState.advance_game).isSome = true := rfl
  have heq : quietState.advance_game = some ((quietState.advance_game).get hs) :=
    (Option.some_get hs).symm
  have hbat : ((quietState.advance_game).get hs).currentBattle =
      quietState.currentBattle := rfl
  have hov : ((quietState.advance_game).get hs).isOver = quietState.isOver := rfl
  have hmain := body_length_never_decreases quietState
    ((quietState.advance_game).get hs) (by decide) (by decide) rfl heq hbat hov
  exact ⟨by decide, by decide, rfl, _, heq, hbat, hov, hmain.1, hmain.2⟩

/-- C4 counterexample: on the tick in which combatant 1 dies (vitality drops
to −5 and `isOver` is set), the nourishment check is NOT skipped: the dead
creature still scores +5 and grows to length 2. -/
theorem interactions_run_after_battle_end :
    dyingOnFoodState.combatant1.tally = 0 ∧
    dyingOnFoodState.combatant1.vitality = 5 ∧
    (dyingOnFoodState.advance_game).map
      (fun mm => (mm.isOver, mm.combatant1.tally, mm.combatant1.segments.length)) =
      some (true, 5, 2) := ⟨rfl, rfl, rfl⟩

/-- C4 amended: the battle-end sequence runs, but the remaining per-tick
interaction checks of the same tick are NOT skipped — they execute on the
post-battle-end state.  In any session-final-battle state of the given shape
(creature 1 about to wrap onto the nourishment cell `(0, 0)` with at most 10
vitality), the tick both sets the over flag and still applies the food
consumption: tally +5 and one extra segment. -/
theorem battle_end_does_not_skip_interactions (m : MatchController)
    (hseg1 : m.combatant1.segments = [⟨0, 44⟩])
    (hdir1 : m.combatant1.move_direction = MOVE_DOWN)
    (hv1 : m.combatant1.vitality ≤ 10)
    (hseg2 : m.combatant2.segments = [⟨30, 20⟩])
    (hdir2 : m.combatant2.move_direction = MOVE_RIGHT)
    (hnour : m.nourishment = ⟨0, 0⟩)
    (horbs : m.restorativeOrbs = [])
    (htime : m.now - m.lastOrbRegen < ORB_RESPAWN_TIME)
    (hlast : ¬ m.currentBattle < m.totalRounds) :
    ∃ m', m.advance_game = some m' ∧ m'.isOver = true ∧
      m'.combatant1.tally = m.combatant1.tally + 5 ∧
      m'.combatant1.segments.length = 2 := by
  have hrep : m.replenish_vitality_orbs = m := by
    unfold MatchController.replenish_vitality_orbs
    rw [if_neg (by omega)]
  have hd45 : gridH ∣ (45 : Int) := by decide
  have e31 : (31 : Int) % gridW = 31 := by decide
  have e20 : (20 : Int) % gridH = 20 := by decide
  have hmv1 : m.combatant1.move =
      some { m.combatant1 with segments := [(⟨0, 0⟩ : Pos)] } := by
    rw [m.combatant1.move_cons ⟨0, 44⟩ [] hseg1]
    simp [hdir1, MOVE_DOWN, hd45]
  have hbp1 : boundaryPenalty { m.combatant1 with segments := [(⟨0, 0⟩ : Pos)] } =
      some { m.combatant1 with
        segments := [(⟨0, 0⟩ : Pos)]
        vitality := m.combatant1.vitality - 5 - 5 } := by
    rw [boundaryPenalty_cons _ ⟨0, 0⟩ [] rfl]
    norm_num
  have hmv2 : m.combatant2.move =
      some { m.combatant2 with segments := [(⟨31, 20⟩ : Pos)] } := by
    rw [m.combatant2.move_cons ⟨30, 20⟩ [] hseg2]
    simp [hdir2, MOVE_RIGHT, e31, e20]
  have hbp2 : boundaryPenalty { m.combatant2 with segments := [(⟨31, 20⟩ : Pos)] } =
      some { m.combatant2 with segments := [(⟨31, 20⟩ : Pos)] } := by
    rw [boundaryPenalty_cons _ ⟨31, 20⟩ [] rfl]
    norm_num [gridW_eq, gridH_eq]
  have htick : m.tickMovePenalty = some { m with
      combatant1 := { m.combatant1 with
        segments := [(⟨0, 0⟩ : Pos)]
        vitality := m.combatant1.vitality - 5 - 5 }
      combatant2 := { m.combatant2 with segments := [(⟨31, 20⟩ : Pos)] } } := by
    simp [MatchController.tickMovePenalty, hrep, hmv1, hbp1, hmv2, hbp2]
  obtain ⟨-, hfin⟩ := battleEndCheck_cases { m with
      combatant1 := { m.combatant1 with
        segments := [(⟨0, 0⟩ : Pos)]
        vitality := m.combatant1.vitality - 5 - 5 }
      combatant2 := { m.combatant2 with segments := [(⟨31, 20⟩ : Pos)] } }
  obtain ⟨-, -, -, hge⟩ := hfin (Or.inl (by show m.combatant1.vitality - 5 - 5 ≤ 0; omega))
  obtain ⟨e_over, -, e_c1, e_c2, -, e_nour, e_orbs⟩ := hge hlast
  -- the post-battle-end state
  generalize hbe : ({ m with
      combatant1 := { m.combatant1 with
        segments := [(⟨0, 0⟩ : Pos)]
        vitality := m.combatant1.vitality - 5 - 5 }
      combatant2 := { m.combatant2 with
        segments := [(⟨31, 20⟩ : Pos)] } } : MatchController).battleEndCheck = mend
    at e_over e_c1 e_c2 e_nour e_orbs
  have hseg1' : mend.combatant1.segments = [(⟨0, 0⟩ : Pos)] := by rw [e_c1]
  have hseg2' : mend.combatant2.segments = [(⟨31, 20⟩ : Pos)] := by rw [e_c2]
  have hnour' : mend.nourishment = (⟨0, 0⟩ : Pos) := by rw [e_nour]; exact hnour
  have horbs' : mend.restorativeOrbs = [] := by rw [e_orbs]; exact horbs
  have hscan : orbScan mend.restorativeOrbs mend.restorativeOrbs
      mend.combatant1 mend.combatant2 =
      some (mend.restorativeOrbs, mend.combatant1, mend.combatant2) := by
    rw [horbs']
    simp [orbScan]
  obtain ⟨c1c, c2c, hcl, k1, k2, k3, k4, k5, k6, k7, k8⟩ :=
    creatureClash_spec mend.combatant1 mend.combatant2
      (by rw [hseg1']; simp) (by rw [hseg2']; simp)
  obtain ⟨mc, hf1, g1, g2, g3, g4, g5, g6, g7, g8⟩ :=
    foodCheck1_spec { mend with
      restorativeOrbs := mend.restorativeOrbs
      combatant1 := c1c
      combatant2 := c2c } (by show c1c.segments ≠ []; rw [k1, hseg1']; simp)
  have hhit : ({ mend with
      restorativeOrbs := mend.restorativeOrbs
      combatant1 := c1c
      combatant2 := c2c } : MatchController).combatant1.detect_collision
      ({ mend with
        restorativeOrbs := mend.restorativeOrbs
        combatant1 := c1c
        combatant2 := c2c } : MatchController).nourishment = some true := by
    rw [c1c.detect_collision_cons ⟨0, 0⟩ [] (by rw [k1, hseg1'])]
    show some (decide ((⟨0, 0⟩ : Pos) = mend.nourishment)) = some true
    rw [hnour']
    simp
  obtain ⟨gt1, gt2, -⟩ := g7 hhit
  obtain ⟨m', hf2, p1, p2, p3, p4, p5, p6, p7, p8⟩ :=
    foodCheck2_spec mc (by rw [g1]; show c2c.segments ≠ []; rw [k2, hseg2']; simp)
  refine ⟨m', ?_, ?_, ?_, ?_⟩
  · show m.advance_game = some m'
    rw [MatchController.advance_game, htick, Option.some_bind, hbe]
    show mend.interactions = some m'
    simp only [MatchController.interactions, hscan, Option.some_bind, hcl]
    rw [hf1, Option.some_bind, hf2]
  · rw [p3, g3]
    exact e_over
  · have hmt : mc.combatant1.tally = c1c.tally + 5 := gt1
    rw [p1, hmt, k3, e_c1]
  · have : mc.combatant1.segments.length = c1c.segments.length + 1 := gt2
    rw [p1, this, k1, hseg1']
    rfl

/-- Witness for the amended C4: `dyingOnFoodState` has the required shape. -/
theorem battle_end_does_not_skip_interactions_witness :
    dyingOnFoodState.combatant1.segments = [⟨0, 44⟩] ∧
    dyingOnFoodState.combatant1.vitality ≤ 10 ∧
    dyingOnFoodState.nourishment = ⟨0, 0⟩ ∧
    ¬ dyingOnFoodState.currentBattle < dyingOnFoodState.totalRounds ∧
    ∃ m', dyingOnFoodState.advance_game = some m' ∧ m'.isOver = true ∧
      m'.combatant1.tally = dyingOnFoodState.combatant1.tally + 5 ∧
      m'.combatant1.segments.length = 2 := by
  have h := battle_end_does_not_skip_interactions dyingOnFoodState
    rfl rfl (by decide) rfl rfl rfl rfl (by decide) (by decide)
  exact ⟨rfl, by decide, rfl, by decide, h⟩

end CobraWars
